import Mathlib

set_option maxHeartbeats 1000000

/-!
Shallow embedding of the NarrationEngine worker system
(src/Worker/worker_system.py): the adaptive worker pool
(WorkerManager), the per-job pipeline (Worker.process_narration and its
collaborators), the audio duration helpers (AudioProcessor) and the
voice selection logic (VoiceSelector).

Machine conventions used throughout:
- wall-clock times (time.time()) are rationals supplied as inputs;
- Python string truthiness is modelled by pyTruthy;
- randomness (random.choice) is modelled by explicit index inputs;
- each outbound collaborator call is modelled by an environment field
  holding the outcome the collaborator produced (success value, raised
  WorkerError, or raised generic exception), so a theorem quantifying
  over the environment covers every combination of collaborator
  behaviours;
- the local file system is a list of existing paths, os.remove removes a
  path, os.path.exists is membership;
- Python string primitives (strip, lower, split, replace, in,
  startswith, endswith) are re-implemented structurally over the
  character list of a string so that every definition evaluates inside
  the kernel; on the ASCII data handled by this program they agree with
  Python.
-/

/-- Python str.strip(): drop whitespace from both ends. -/
def pyStrip (s : String) : String :=
  ⟨((s.data.dropWhile Char.isWhitespace).reverse.dropWhile Char.isWhitespace).reverse⟩

/-- Python str.lower() (ASCII range, which covers every string this
program compares after lowering). -/
def pyLower (s : String) : String := ⟨s.data.map Char.toLower⟩

/-- Helper for pySplitOn: structural recursion on an explicit fuel, with
`sep` known non-empty so each step consumes at least one character. -/
def pySplitAux (sep : List Char) : Nat → List Char → List (List Char)
  | 0, l => [l]
  | _ + 1, [] => [[]]
  | fuel + 1, c :: rest =>
    if sep.isPrefixOf (c :: rest) then
      [] :: pySplitAux sep fuel (rest.drop (sep.length - 1))
    else
      match pySplitAux sep fuel rest with
      | [] => [[c]]
      | h :: t => (c :: h) :: t

/-- Python str.split(sep) for a non-empty separator. -/
def pySplitOn (s sep : String) : List String :=
  if sep.data.isEmpty then [s]
  else (pySplitAux sep.data s.data.length s.data).map fun cs => ⟨cs⟩

/-- Python substring test: needle in hay, for a non-empty needle. -/
def pyIn (needle hay : String) : Bool := (pySplitOn hay needle).length > 1

/-- Python sep.join(parts). -/
def pyJoin (sep : String) : List String → String
  | [] => ""
  | [x] => x
  | x :: y :: t => x ++ sep ++ pyJoin sep (y :: t)

/-- Python str.replace(a, b): b.join(s.split(a)). -/
def pyReplace (s a b : String) : String := pyJoin b (pySplitOn s a)

/-- Python str.endswith(post). -/
def pyEndsWith (s post : String) : Bool := post.data.isSuffixOf s.data

/-- Python truthiness of an optional string: None and the empty string are falsy. -/
def pyTruthy : Option String → Bool
  | none => false
  | some s => s ≠ ""

/-- random.choice on a list of strings, with the random draw supplied as a
natural number index (reduced mod the list length). -/
def pyChoice (l : List String) (r : Nat) : String := l.getD (r % l.length) ""

/-- The file system: the list of paths that currently exist. -/
abbrev FS := List String

/-- Creating a file at a path. -/
def addFile (fs : FS) (p : String) : FS := p :: fs

/-- os.remove: the path no longer exists afterwards. -/
def removeFile (fs : FS) (p : String) : FS := fs.filter (fun q => q != p)

/-- The guarded deletion pattern used by every cleanup block in the source:
if os.path.exists(p): os.remove(p), tolerating an absent file as a no-op. -/
def pyExistsRemove (fs : FS) (p : String) : FS :=
  if p ∈ fs then removeFile fs p else fs

/-- The fields of WorkerConfig (worker_system.py, lines 46-71) that the
modelled core reads: the TTS default voice, the random-voice flag and the
worker ceiling.  max_workers is int(os.getenv(..)), hence an integer. -/
structure WorkerConfig where
  voice : String
  use_random_voice : Bool
  max_workers : Int
deriving DecidableEq

/-- VoiceSelector.AVAILABLE_VOICES (worker_system.py line 529). -/
def AVAILABLE_VOICES : List String := ["tara", "leah", "leo", "dan", "mia", "zac"]

/-- VoiceSelector.FEMALE_VOICES (worker_system.py line 539). -/
def FEMALE_VOICES : List String := ["tara", "leah", "mia"]

/-- VoiceSelector.MALE_VOICES (worker_system.py line 540). -/
def MALE_VOICES : List String := ["leo", "dan", "zac"]

/-- VoiceSelector.get_voice (worker_system.py lines 542-598).
target_gender is the optional hint; rGender models
random.choice([True, False]) and rIdx models the index drawn by
random.choice on a voice pool.  Python `if target_gender:` is string
truthiness, hence the emptiness checks. -/
def get_voice (cfg : WorkerConfig) (target_gender : Option String)
    (rGender : Bool) (rIdx : Nat) : String :=
  if cfg.use_random_voice then
    let tg := target_gender.getD ""
    if tg ≠ "" ∧ pyStrip (pyLower tg) ∈ ["female", "woman", "girl", "f"] then
      pyChoice FEMALE_VOICES rIdx
    else if tg ≠ "" ∧ pyStrip (pyLower tg) ∈ ["male", "man", "boy", "m"] then
      pyChoice MALE_VOICES rIdx
    else if rGender then
      pyChoice FEMALE_VOICES rIdx
    else
      pyChoice MALE_VOICES rIdx
  else
    let tg := target_gender.getD ""
    if tg ≠ "" then
      if pyStrip (pyLower tg) ∈ ["female", "woman", "girl", "f"] then
        if cfg.voice ∉ FEMALE_VOICES then pyChoice FEMALE_VOICES rIdx else cfg.voice
      else if pyStrip (pyLower tg) ∈ ["male", "man", "boy", "m"] then
        if cfg.voice ∉ MALE_VOICES then pyChoice MALE_VOICES rIdx else cfg.voice
      else cfg.voice
    else cfg.voice

/-- Value of a non-empty list of decimal digit characters. -/
def digitsToNat? (cs : List Char) : Option Nat :=
  if cs.isEmpty then none
  else if cs.all Char.isDigit then
    some (cs.foldl (fun n c => 10 * n + (c.toNat - 48)) 0)
  else none

/-- Python float(s) on the decimal-literal fragment that ffmpeg duration
fields use (optional sign, digits, optional fractional part); none models
the ValueError that float raises on anything else. -/
def pyFloat? (s : String) : Option ℚ :=
  let t := (pyStrip s).data
  let sgn : ℚ := if t.headD ' ' = '-' then -1 else 1
  let u := if t.headD ' ' = '-' ∨ t.headD ' ' = '+' then t.tail else t
  match u.splitOn '.' with
  | [a] => (digitsToNat? a).map fun n => sgn * n
  | [a, b] =>
    if a.isEmpty ∧ b.isEmpty then none
    else
      let ip := if a.isEmpty then some 0 else digitsToNat? a
      let fp : Option ℚ :=
        if b.isEmpty then some 0
        else (digitsToNat? b).map fun n => (n : ℚ) / 10 ^ b.length
      match ip, fp with
      | some i, some f => some (sgn * ((i : ℚ) + f))
      | _, _ => none
  | _ => none

/-- Python round(x, 2) (half-integer ties, which never arise in the
claims, are rounded up rather than to even). -/
def round2 (q : ℚ) : ℚ := (⌊q * 100 + 1 / 2⌋ : ℚ) / 100

/-- The loop of AudioProcessor.get_mp3_duration over ffmpeg stderr lines
(worker_system.py lines 221-231): the first line containing "Duration:"
whose field splits into three colon-separated parts determines the
result; a float ValueError propagates (error), exhausting the lines
yields none. -/
def scanDuration : List String → Except Unit (Option ℚ)
  | [] => .ok none
  | line :: rest =>
    if pyIn "Duration:" line then
      let durStr := pyStrip ((pySplitOn ((pySplitOn line "Duration:").getD 1 "") ",").getD 0 "")
      let parts := pySplitOn durStr ":"
      if parts.length = 3 then
        match pyFloat? (parts.getD 0 ""), pyFloat? (parts.getD 1 ""), pyFloat? (parts.getD 2 "") with
        | some h, some m, some s => .ok (some (round2 (h * 3600 + m * 60 + s)))
        | _, _, _ => .error ()
      else scanDuration rest
    else scanDuration rest

/-- Environment of one AudioProcessor.get_mp3_duration call: whether the
pydub import succeeded (module-level PYDUB_AVAILABLE), what
AudioSegment.from_mp3 produced (length in milliseconds, or a raised
exception), whether ffmpeg is on the system, whether invoking it raised
(e.g. a subprocess timeout), and the stderr lines it printed. -/
structure Mp3Env where
  pydubAvailable : Bool
  pydubMs : Except Unit ℚ
  ffmpegAvailable : Bool
  ffmpegRaises : Bool
  stderrLines : List String

/-- AudioProcessor.get_mp3_duration (worker_system.py lines 200-239).
The ffmpeg branch is reached only when PYDUB_AVAILABLE is false; any
exception anywhere is caught by the enclosing handler, which returns
0.0. -/
def get_mp3_duration (env : Mp3Env) : ℚ :=
  if env.pydubAvailable then
    match env.pydubMs with
    | .ok ms => round2 (ms / 1000)
    | .error _ => 0
  else if env.ffmpegAvailable then
    if env.ffmpegRaises then 0
    else
      match scanDuration env.stderrLines with
      | .ok (some d) => d
      | .ok none => 0
      | .error _ => 0
  else 0

/-- The status strings a WorkerRecord moves through
(WorkerManager.start_worker, worker_system.py lines 864-906). -/
inductive WStatus where
  | starting
  | processing
  | completed
  | failed
  | no_narrations
  | error
deriving DecidableEq

/-- One entry of WorkerManager.active_workers: start time and status
(the task handle carries no information the model needs). -/
structure WorkerRec where
  start_time : ℚ
  status : WStatus
deriving DecidableEq

/-- The mutable state of WorkerManager (worker_system.py lines 846-853).
active_workers is the worker_id-keyed dictionary, worker_counter the
id source, no_narrations_backoff and max_backoff the backoff scalars
(Python ints), last_no_narration_time the last empty-queue timestamp. -/
structure ManagerState where
  active_workers : List (Nat × WorkerRec)
  worker_counter : Nat
  running : Bool
  no_narrations_backoff : Int
  max_backoff : Int
  last_no_narration_time : ℚ
deriving DecidableEq

/-- WorkerManager.__init__ (worker_system.py lines 846-853). -/
def initState : ManagerState :=
  { active_workers := []
    worker_counter := 0
    running := false
    no_narrations_backoff := 0
    max_backoff := 60
    last_no_narration_time := 0 }

/-- Python dict status assignment self.active_workers[wid][..] = s for an
existing key. -/
def setStatus (d : List (Nat × WorkerRec)) (k : Nat) (s : WStatus) : List (Nat × WorkerRec) :=
  d.map fun p => if p.1 = k then (p.1, { p.2 with status := s }) else p

/-- Python dict removal self.active_workers.pop(wid, None). -/
def popWorker (d : List (Nat × WorkerRec)) (k : Nat) : List (Nat × WorkerRec) :=
  d.filter fun p => p.1 ≠ k

/-- How one full Worker.process_narration attempt inside
WorkerManager.start_worker terminated, as observed by the launcher:
the Worker(..) constructor raised before the attempt started (ctorFail),
process_narration returned a boolean, it raised a WorkerError with the
given message, or it raised some other exception with the given
message. -/
inductive ProcOutcome where
  | ctorFail (msg : String)
  | ok (b : Bool)
  | workerErr (msg : String)
  | otherErr (msg : String)
deriving DecidableEq

/-- The exact message of the WorkerError raised by APIClient.get_narration
on a 404 (worker_system.py line 640), which start_worker matches by
substring. -/
def noNarrMsg : String := "No narration available for audio generation"

/-- Whether start_worker classifies an outcome as successful processing
(process_narration returned True). -/
def outcomeSuccess : ProcOutcome → Bool
  | .ok true => true
  | _ => false

/-- Whether start_worker classifies an outcome as the empty-queue signal:
a WorkerError or generic exception whose message contains noNarrMsg (the
outer except arm that catches constructor failures never checks the
message). -/
def outcomeNoNarr : ProcOutcome → Bool
  | .workerErr m => pyIn noNarrMsg m
  | .otherErr m => pyIn noNarrMsg m
  | _ => false

/-- Result triple of one start_worker call: the new manager state and the
returned (worker_id, success) pair. -/
structure StartResult where
  state : ManagerState
  workerId : Nat
  success : Bool
deriving DecidableEq

/-- WorkerManager.start_worker (worker_system.py lines 855-926).
tStart and tFinish are the two time.time() readings (record creation and
backoff accounting); out is the observed termination of the processing
attempt.  Mirrors the source: counter bump, duplicate-id early return,
record insertion, status updates in the try body, the two inner except
arms matching noNarrMsg by substring, the outer except arm, the finally
pop, and the trailing backoff update. -/
def start_worker (st : ManagerState) (tStart tFinish : ℚ) (out : ProcOutcome) : StartResult :=
  let counter := st.worker_counter + 1
  let wid := counter
  let st1 := { st with worker_counter := counter }
  if (st1.active_workers.lookup wid).isSome then
    ⟨st1, wid, false⟩
  else
    let active0 := (wid, ⟨tStart, WStatus.starting⟩) :: st1.active_workers
    let res : List (Nat × WorkerRec) × Bool × Bool :=
      match out with
      | .ctorFail _ => (setStatus active0 wid .error, false, false)
      | .ok true => (setStatus (setStatus active0 wid .processing) wid .completed, true, false)
      | .ok false => (setStatus (setStatus active0 wid .processing) wid .failed, false, false)
      | .workerErr m =>
        if pyIn noNarrMsg m then
          (setStatus (setStatus active0 wid .processing) wid .no_narrations, false, true)
        else
          (setStatus (setStatus active0 wid .processing) wid .error, false, false)
      | .otherErr m =>
        if pyIn noNarrMsg m then
          (setStatus (setStatus active0 wid .processing) wid .no_narrations, false, true)
        else
          (setStatus (setStatus active0 wid .processing) wid .error, false, false)
    let success := res.2.1
    let noNarr := res.2.2
    let st2 := { st1 with active_workers := popWorker res.1 wid }
    let st3 :=
      if noNarr then
        { st2 with
          last_no_narration_time := tFinish
          no_narrations_backoff :=
            if st2.no_narrations_backoff = 0 then 5
            else min (st2.no_narrations_backoff * 2) st2.max_backoff }
      else if success then
        { st2 with no_narrations_backoff := 0 }
      else st2
    ⟨st3, wid, success⟩

/-- WorkerManager.should_start_new_worker (worker_system.py lines
928-958).  now is the time.time() reading.  Returns the decision and the
possibly mutated state (the method resets the backoff in place once the
backoff window has elapsed). -/
def should_start_new_worker (cfg : WorkerConfig) (st : ManagerState) (now : ℚ) :
    Bool × ManagerState :=
  if st.no_narrations_backoff > 0 then
    if now - st.last_no_narration_time < (st.no_narrations_backoff : ℚ) then
      (false, st)
    else
      (st.active_workers.length = 0, { st with no_narrations_backoff := 0 })
  else
    let activeCount := st.active_workers.length
    if activeCount = 0 then
      (true, st)
    else if (activeCount : Int) < cfg.max_workers then
      (st.active_workers.any fun p =>
        p.2.status = WStatus.processing ∧ now - p.2.start_time > 30, st)
    else
      (false, st)

/-- One observable transition of the pool state: a launched execution
finishing (start_worker runs to completion) or a decision poll
(should_start_new_worker, which can reset an elapsed backoff). -/
inductive PoolStep (cfg : WorkerConfig) : ManagerState → ManagerState → Prop where
  | finish (st : ManagerState) (t1 t2 : ℚ) (out : ProcOutcome) :
      PoolStep cfg st (start_worker st t1 t2 out).state
  | decideCall (st : ManagerState) (now : ℚ) :
      PoolStep cfg st (should_start_new_worker cfg st now).2

/-- States of the pool reachable from the freshly initialised manager. -/
def Reachable (cfg : WorkerConfig) (st : ManagerState) : Prop :=
  Relation.ReflTransGen (PoolStep cfg) initState st

/-- Folding a sequence of empty-queue finishes (each with its own pair of
clock readings) through start_worker. -/
def runNoWork (st : ManagerState) : List (ℚ × ℚ) → ManagerState
  | [] => st
  | (t1, t2) :: rest => runNoWork (start_worker st t1 t2 (.workerErr noNarrMsg)).state rest

/-- Keys in active_workers never exceed the id counter; true initially
and preserved by every operation, and what makes each freshly drawn id
distinct from every live record. -/
def WFState (st : ManagerState) : Prop :=
  ∀ p ∈ st.active_workers, p.1 ≤ st.worker_counter

/-- The fields of a fetched narration JSON object that
Worker.process_narration reads.  dict.get distinguishes absent (none)
from present values. -/
structure Narration where
  id : Option String
  text : Option String
  company_deep_research : Option String
  profile_deep_research : Option String
  target_gender : Option String
deriving DecidableEq

/-- Text assembly of Worker.process_narration (worker_system.py lines
750-756): strip the explicit text field (absent defaults to the empty
string); if that is empty, concatenate the two research fields with a
blank line and strip. -/
def assembleText (n : Narration) : String :=
  let t := pyStrip (n.text.getD "")
  if t = "" then
    pyStrip ((n.company_deep_research.getD "") ++ "\n\n" ++ (n.profile_deep_research.getD ""))
  else t

/-- An exception escaping a pipeline step: a WorkerError or any other
Python exception, with its message. -/
inductive PyErr where
  | workerErr (msg : String)
  | otherErr (msg : String)
deriving DecidableEq

/-- Environment of one DiscordNotifier.send_narration_summary call
(worker_system.py lines 317-523).  The embed construction is irrelevant
to file lifecycles and is abstracted into the branch condition
makeTextFile (the overlong-text attachment branch); textWriteCompleted
distinguishes a write that finished from one interrupted by an
exception; exnBeforeAudio is an exception raised in the try block before
the audio download stored a temp file; audioDownloaded is a 200 response
from the audio fetch.  All failure combinations are covered because
theorems quantify over every valuation. -/
structure NotifyEnv where
  webhookConfigured : Bool
  makeTextFile : Bool
  textWriteCompleted : Bool
  exnBeforeAudio : Bool
  audioDownloaded : Bool
  textPath : String
  audioPath : String
deriving DecidableEq

/-- DiscordNotifier.send_narration_summary restricted to its file-system
effects: the try block may create a temp text file and a temp audio file
(in that order); whatever else happens, the except arm swallows the
exception and the finally block deletes, with an exists guard and its
own per-file exception guard, exactly the files whose name variables
were set (Python string truthiness: an empty path name is falsy and is
skipped).  Returns the file system afterwards and the list of temp
files that were actually created. -/
def notifyRun (env : NotifyEnv) (fs : FS) : FS × List String :=
  if env.webhookConfigured then
    let textVar := env.makeTextFile
    let fs1 := if env.makeTextFile ∧ env.textWriteCompleted then addFile fs env.textPath else fs
    let audioVar := ¬env.exnBeforeAudio ∧ env.audioDownloaded
    let fs2 := if ¬env.exnBeforeAudio ∧ env.audioDownloaded then addFile fs1 env.audioPath else fs1
    let fs3 := if audioVar ∧ env.audioPath ≠ "" then pyExistsRemove fs2 env.audioPath else fs2
    let fs4 := if textVar ∧ env.textPath ≠ "" then pyExistsRemove fs3 env.textPath else fs3
    (fs4,
      (if env.makeTextFile ∧ env.textWriteCompleted then [env.textPath] else []) ++
        (if ¬env.exnBeforeAudio ∧ env.audioDownloaded then [env.audioPath] else []))
  else (fs, [])

/-- Outcome of one APIClient.generate_tts call (worker_system.py lines
653-692).  The source writes the wav file inside the call, before
returning its path: a non-200 response raises WorkerError before the
file is opened, a connection failure raises before the file is created
(raised), and an exception during the chunked body read or disk write —
e.g. the per-call timeout firing mid-download — happens after the file
already exists (raisedAfterCreate, always a generic exception since the
status-200 path has no WorkerError raise site): the partial wav is on
disk but the path is never returned, so process_narration's
wav_file_path stays None. -/
inductive TtsOutcome where
  | ok
  | raised (e : PyErr)
  | raisedAfterCreate (msg : String)
deriving DecidableEq

/-- Outcome of one AudioProcessor.convert_wav_to_mp3 call
(worker_system.py lines 170-198): it either returns the mp3 path (file
complete) or raises WorkerError; a failed pydub export or ffmpeg run can
leave a partial mp3 file behind (leftover = true), which the caller
never learns about because mp3_file_path is then reset to the wav
path. -/
inductive ConvOutcome where
  | ok
  | failed (leftover : Bool)
deriving DecidableEq

/-- Environment of one Worker.process_narration call: the outcome of each
outbound collaborator step.  fetch is get_narration; tts is generate_tts
(on ok the complete wav exists at wavPath; see TtsOutcome for the two
raise points); convert is convert_wav_to_mp3 (see ConvOutcome);
mp3Duration and wavDuration are what the two duration helpers return
(they never raise); uploadRes is upload_audio (url or raised error);
updateRes is update_narration_audio; notify is the Discord notification
environment. -/
structure PipeEnv where
  fetch : Except PyErr Narration
  tts : TtsOutcome
  wavPath : String
  convert : ConvOutcome
  mp3Duration : ℚ
  wavDuration : ℚ
  uploadRes : Except PyErr String
  updateRes : Except PyErr Unit
  notify : NotifyEnv

/-- The local files a pipeline execution can create but never deletes:
the partial wav left when generate_tts raises after creating the file
(its path was never assigned to wav_file_path, so the finally block at
worker_system.py lines 823-837 does not know it), and the partial mp3
left by a failed conversion when its generated path differs from the
wav path (mp3_file_path is reset to the wav path, so cleanup only sees
the wav). -/
def leakedFiles (env : PipeEnv) : List String :=
  (match env.tts with
    | .raisedAfterCreate _ => [env.wavPath]
    | _ => []) ++
  (match env.tts, env.convert with
    | .ok, .failed true =>
      if pyReplace env.wavPath ".wav" ".mp3" = env.wavPath then []
      else [pyReplace env.wavPath ".wav" ".mp3"]
    | _, _ => [])

/-- State of one process_narration execution when its try body finishes:
the pending result (a returned boolean or an escaping exception), the
file system, the wav_file_path and mp3_file_path local variables, the
local files the execution created, and the recorded trace the claims
inspect: the text handed to generate_tts, the path handed to
upload_audio, and the path whose duration was used. -/
structure BodyOut where
  result : Except PyErr Bool
  fs : FS
  wavVar : Option String
  mp3Var : Option String
  created : List String
  ttsText : Option String
  uploadedPath : Option String
  durationPath : Option String
  durationVal : ℚ

/-- The try body of Worker.process_narration (worker_system.py lines
739-812), step by step: fetch, narration-id check, text assembly,
generate_tts — which writes the wav file before returning its path, so
an exception raised mid-stream (raisedAfterCreate) leaves the partial
wav on disk while wav_file_path stays None — convert_wav_to_mp3 with
its WorkerError handler resetting mp3_file_path to the wav (a failed
conversion may leave a partial mp3 the variables no longer point at),
duration measurement with its zero-result fallback, upload, update,
Discord notify (which never raises), then return True. -/
def bodyRun (env : PipeEnv) (fs0 : FS) : BodyOut :=
  match env.fetch with
  | .error e => ⟨.error e, fs0, none, none, [], none, none, none, 0⟩
  | .ok n =>
    if n.id.getD "" = "" then
      ⟨.error (.workerErr "No narration ID in narration data"), fs0, none, none, [], none,
        none, none, 0⟩
    else
      let text := assembleText n
      if text = "" then
        ⟨.error (.workerErr "No text content available for TTS"), fs0, none, none, [], none,
          none, none, 0⟩
      else
        match env.tts with
        | .raised e => ⟨.error e, fs0, none, none, [], some text, none, none, 0⟩
        | .raisedAfterCreate m =>
          ⟨.error (.otherErr m), addFile fs0 env.wavPath, none, none, [env.wavPath],
            some text, none, none, 0⟩
        | .ok =>
          let wav := env.wavPath
          let fs1 := addFile fs0 wav
          let mp3Path := pyReplace wav ".wav" ".mp3"
          let conv :=
            match env.convert with
            | .ok => (addFile fs1 mp3Path, mp3Path, [wav, mp3Path])
            | .failed lv =>
              (if lv then addFile fs1 mp3Path else fs1, wav,
                if lv then [wav, mp3Path] else [wav])
          let fs2 := conv.1
          let mp3 := conv.2.1
          let created := conv.2.2
          let dur :=
            if mp3 ≠ wav ∧ pyEndsWith mp3 ".mp3" then
              if env.mp3Duration = 0 then env.wavDuration else env.mp3Duration
            else env.wavDuration
          let durPath :=
            if mp3 ≠ wav ∧ pyEndsWith mp3 ".mp3" then
              if env.mp3Duration = 0 then wav else mp3
            else wav
          let upPath := if mp3 ≠ wav then mp3 else wav
          match env.uploadRes with
          | .error e =>
            ⟨.error e, fs2, some wav, some mp3, created, some text, some upPath, some durPath, dur⟩
          | .ok _url =>
            match env.updateRes with
            | .error e =>
              ⟨.error e, fs2, some wav, some mp3, created, some text, some upPath, some durPath,
                dur⟩
            | .ok _ =>
              let nres := notifyRun env.notify fs2
              ⟨.ok true, nres.1, some wav, some mp3, created ++ nres.2, some text, some upPath,
                some durPath, dur⟩

/-- The finally block of Worker.process_narration (worker_system.py lines
821-841): collect wav_file_path if truthy and mp3_file_path if truthy
and distinct from wav_file_path, then delete each with an exists guard
inside a per-file exception guard. -/
def cleanupFiles (wav mp3 : Option String) (fs : FS) : FS :=
  let files :=
    (if pyTruthy wav then [wav.getD ""] else []) ++
      (if pyTruthy mp3 ∧ mp3 ≠ wav then [mp3.getD ""] else [])
  files.foldl pyExistsRemove fs

/-- The observable outcome of one Worker.process_narration call. -/
structure PipeResult where
  result : Except PyErr Bool
  fs : FS
  created : List String
  ttsText : Option String
  uploadedPath : Option String
  durationPath : Option String
  durationVal : ℚ

/-- Worker.process_narration (worker_system.py lines 732-841): run the
try body, re-raise a WorkerError, translate any other exception into a
False return, and run the cleanup block on every path. -/
def process_narration (env : PipeEnv) (fs0 : FS) : PipeResult :=
  let b := bodyRun env fs0
  let r : Except PyErr Bool :=
    match b.result with
    | .error (.workerErr m) => .error (.workerErr m)
    | .error (.otherErr _) => .ok false
    | .ok v => .ok v
  ⟨r, cleanupFiles b.wavVar b.mp3Var b.fs, b.created, b.ttsText, b.uploadedPath, b.durationPath,
    b.durationVal⟩

/-- A narration whose explicit text field carries surrounding
whitespace, used to exercise the text-assembly claims. -/
def nSpacedText : Narration := ⟨some "j1", some " hi ", none, none, none⟩

/-- A pipeline environment that fetches nSpacedText and succeeds at every
step (webhook unconfigured, so no Discord temp files). -/
def envSpacedText : PipeEnv :=
  ⟨.ok nSpacedText, .ok, "outputs/w.wav", .ok, 1, 1, .ok "url", .ok (),
    ⟨false, false, false, false, false, "t", "a"⟩⟩

/-- A pipeline environment whose wav-to-mp3 conversion fails (leaving no
partial file) while every other step succeeds. -/
def envConvFail : PipeEnv :=
  ⟨.ok ⟨some "j1", some "hello", none, none, none⟩, .ok, "outputs/w.wav", .failed false,
    1, 1, .ok "url", .ok (), ⟨false, false, false, false, false, "t", "a"⟩⟩

/-- A fully successful pipeline environment whose Discord notification
creates both temp attachment files. -/
def envAllOk : PipeEnv :=
  ⟨.ok ⟨some "j1", some "hello", none, none, none⟩, .ok, "outputs/w.wav", .ok, 1, 1,
    .ok "url", .ok (),
    ⟨true, true, true, false, true, "outputs/t.txt", "outputs/a.mp3"⟩⟩

/-- A pipeline environment where generate_tts raises mid-stream after
creating the wav file (e.g. the per-call timeout firing during the
chunked body read). -/
def envTtsMidRaise : PipeEnv :=
  ⟨.ok ⟨some "j1", some "hello", none, none, none⟩, .raisedAfterCreate "Connection timeout",
    "outputs/w.wav", .ok, 1, 1, .ok "url", .ok (),
    ⟨false, false, false, false, false, "t", "a"⟩⟩

/-- A pipeline environment whose conversion fails leaving a partial mp3
behind, while every other step succeeds. -/
def envConvLeftover : PipeEnv :=
  ⟨.ok ⟨some "j1", some "hello", none, none, none⟩, .ok, "outputs/w.wav", .failed true,
    1, 1, .ok "url", .ok (), ⟨false, false, false, false, false, "t", "a"⟩⟩

/-! Helper lemmas. -/

/-- Python dict lookup misses every key that is not in the dictionary. -/
theorem lookup_eq_none_of (l : List (Nat × WorkerRec)) (k : Nat)
    (h : ∀ p ∈ l, p.1 ≠ k) : l.lookup k = none := by
  induction l with
  | nil => rfl
  | cons a t ih =>
    have ha := h a (List.mem_cons_self a t)
    have ht : ∀ p ∈ t, p.1 ≠ k := fun p hp => h p (List.mem_cons_of_mem a hp)
    have hb : (k == a.1) = false := beq_eq_false_iff_ne.mpr (Ne.symm ha)
    simp [List.lookup, hb, ih ht]

/-- Updating the status of an absent key changes nothing. -/
theorem setStatus_eq_of (l : List (Nat × WorkerRec)) (k : Nat) (s : WStatus)
    (h : ∀ p ∈ l, p.1 ≠ k) : setStatus l k s = l := by
  induction l with
  | nil => rfl
  | cons a t ih =>
    have ha := h a (List.mem_cons_self a t)
    have ht : ∀ p ∈ t, p.1 ≠ k := fun p hp => h p (List.mem_cons_of_mem a hp)
    calc setStatus (a :: t) k s
        = (if a.1 = k then (a.1, { a.2 with status := s }) else a) :: setStatus t k s := rfl
      _ = a :: t := by rw [if_neg ha, ih ht]

/-- Popping an absent key changes nothing. -/
theorem popWorker_eq_of (l : List (Nat × WorkerRec)) (k : Nat)
    (h : ∀ p ∈ l, p.1 ≠ k) : popWorker l k = l := by
  induction l with
  | nil => rfl
  | cons a t ih =>
    have ha := h a (List.mem_cons_self a t)
    have ht : ∀ p ∈ t, p.1 ≠ k := fun p hp => h p (List.mem_cons_of_mem a hp)
    simp only [popWorker, List.filter_cons] at ih ⊢
    rw [if_pos (by simpa using ha), ih ht]

/-- Status update on a freshly inserted record. -/
theorem setStatus_cons_self (l : List (Nat × WorkerRec)) (k : Nat) (r : WorkerRec) (s : WStatus)
    (h : ∀ p ∈ l, p.1 ≠ k) :
    setStatus ((k, r) :: l) k s = (k, ⟨r.start_time, s⟩) :: l := by
  calc setStatus ((k, r) :: l) k s
      = (if k = k then (k, { r with status := s }) else (k, r)) :: setStatus l k s := rfl
    _ = (k, ⟨r.start_time, s⟩) :: l := by rw [if_pos rfl, setStatus_eq_of l k s h]

/-- Popping the freshly inserted record recovers the original dictionary. -/
theorem popWorker_cons_self (l : List (Nat × WorkerRec)) (k : Nat) (r : WorkerRec)
    (h : ∀ p ∈ l, p.1 ≠ k) :
    popWorker ((k, r) :: l) k = l := by
  simp only [popWorker, List.filter_cons]
  rw [if_neg (by simp)]
  exact popWorker_eq_of l k h

/-- Full characterisation of start_worker on a well-formed state: the
fresh id misses every live record, so the call inserts, mutates and then
removes exactly its own record, leaving active_workers unchanged,
bumping the counter, running the backoff accounting on every outcome,
and returning (fresh id, success flag). -/
theorem start_worker_spec (st : ManagerState) (t1 t2 : ℚ) (out : ProcOutcome)
    (h : WFState st) :
    start_worker st t1 t2 out =
      ⟨{ st with
          worker_counter := st.worker_counter + 1
          no_narrations_backoff :=
            if outcomeNoNarr out then
              (if st.no_narrations_backoff = 0 then 5
               else min (st.no_narrations_backoff * 2) st.max_backoff)
            else if outcomeSuccess out then 0
            else st.no_narrations_backoff
          last_no_narration_time :=
            if outcomeNoNarr out then t2 else st.last_no_narration_time },
        st.worker_counter + 1, outcomeSuccess out⟩ := by
  have hfresh : ∀ p ∈ st.active_workers, p.1 ≠ st.worker_counter + 1 := by
    intro p hp
    have := h p hp
    omega
  have hlook : st.active_workers.lookup (st.worker_counter + 1) = none :=
    lookup_eq_none_of _ _ hfresh
  cases out with
  | ctorFail m =>
    simp [start_worker, hlook, outcomeNoNarr, outcomeSuccess,
      setStatus_cons_self _ _ _ _ hfresh, popWorker_cons_self _ _ _ hfresh]
  | ok b =>
    cases b <;>
      simp [start_worker, hlook, outcomeNoNarr, outcomeSuccess,
        setStatus_cons_self _ _ _ _ hfresh, popWorker_cons_self _ _ _ hfresh]
  | workerErr m =>
    by_cases hm : pyIn noNarrMsg m = true <;>
      simp [start_worker, hlook, outcomeNoNarr, outcomeSuccess, hm,
        setStatus_cons_self _ _ _ _ hfresh, popWorker_cons_self _ _ _ hfresh]
  | otherErr m =>
    by_cases hm : pyIn noNarrMsg m = true <;>
      simp [start_worker, hlook, outcomeNoNarr, outcomeSuccess, hm,
        setStatus_cons_self _ _ _ _ hfresh, popWorker_cons_self _ _ _ hfresh]

/-- start_worker preserves well-formedness: the counter grows and the
record set is restored. -/
theorem WF_start_worker (st : ManagerState) (t1 t2 : ℚ) (out : ProcOutcome)
    (h : WFState st) : WFState (start_worker st t1 t2 out).state := by
  rw [start_worker_spec st t1 t2 out h]
  intro p hp
  have := h p hp
  show p.1 ≤ st.worker_counter + 1
  omega

/-- should_start_new_worker preserves well-formedness: it never touches
the record set or the counter. -/
theorem WF_should_start (cfg : WorkerConfig) (st : ManagerState) (now : ℚ)
    (h : WFState st) : WFState (should_start_new_worker cfg st now).2 := by
  simp only [should_start_new_worker]
  split_ifs <;> exact h

/-- C4: for every pool state and every observable termination of the
processing attempt (success, failure return, WorkerError, generic
exception, or a constructor failure before any result), start_worker
returns a value (the embedding is a total function: every raise site of
the source is consumed by the modelled handlers), the record it inserted
is gone, the record set is exactly what it was before the call, and the
backoff accounting ran on the outcome (unchanged unless the outcome is
the empty-queue signal or a success). -/
theorem c4_start_worker_total_and_removes_record (st : ManagerState) (t1 t2 : ℚ)
    (out : ProcOutcome) (h : WFState st) :
    ((start_worker st t1 t2 out).state.active_workers.lookup
        (start_worker st t1 t2 out).workerId = none)
    ∧ (start_worker st t1 t2 out).state.active_workers = st.active_workers
    ∧ (start_worker st t1 t2 out).state.no_narrations_backoff =
        (if outcomeNoNarr out then
          (if st.no_narrations_backoff = 0 then 5
           else min (st.no_narrations_backoff * 2) st.max_backoff)
         else if outcomeSuccess out then 0
         else st.no_narrations_backoff) := by
  rw [start_worker_spec st t1 t2 out h]
  refine ⟨?_, rfl, rfl⟩
  show List.lookup (st.worker_counter + 1) st.active_workers = none
  exact lookup_eq_none_of _ _ (fun p hp => by have := h p hp; omega)

/-- Witness for C4: a launch of the fresh pool that dies in the Worker
constructor still ends with its record absent. -/
theorem c4_witness :
    WFState initState ∧
      ((start_worker initState 0 1 (.ctorFail "boom")).state.active_workers.lookup
          (start_worker initState 0 1 (.ctorFail "boom")).workerId = none) :=
  ⟨fun p hp => absurd hp (List.not_mem_nil p),
    (c4_start_worker_total_and_removes_record initState 0 1 (.ctorFail "boom")
      (fun p hp => absurd hp (List.not_mem_nil p))).1⟩

/-- Doubling a capped backoff value is the cap of the doubled value. -/
theorem backoff_min_double (a : Int) (ha : 5 ≤ a) :
    (if min a 60 = 0 then (5 : Int) else min (min a 60 * 2) 60) = min (a * 2) 60 := by
  rcases le_total a 60 with h | h
  · rw [min_eq_left h, if_neg (by omega)]
  · rw [min_eq_right h, if_neg (by omega), min_eq_right (by omega),
      min_eq_right (by omega)]

/-- After a no-work finish from a capped power-of-two backoff, the
backoff is the next capped power of two. -/
theorem runNoWork_backoff (ts : List (ℚ × ℚ)) (st : ManagerState) (k : Nat)
    (hwf : WFState st) (hmb : st.max_backoff = 60)
    (hb : st.no_narrations_backoff = min (5 * 2 ^ k) 60) :
    (runNoWork st ts).no_narrations_backoff = min (5 * 2 ^ (k + ts.length)) 60 := by
  induction ts generalizing st k with
  | nil => simpa using hb
  | cons p rest ih =>
    obtain ⟨t1, t2⟩ := p
    have hs := start_worker_spec st t1 t2 (.workerErr noNarrMsg) hwf
    have hpos : (0 : Int) < 2 ^ k := pow_pos (by norm_num) k
    have ha : (5 : Int) ≤ 5 * 2 ^ k := by omega
    have hwf' := WF_start_worker st t1 t2 (.workerErr noNarrMsg) hwf
    have hmb' : (start_worker st t1 t2 (.workerErr noNarrMsg)).state.max_backoff = 60 := by
      rw [hs]; exact hmb
    have hb' : (start_worker st t1 t2 (.workerErr noNarrMsg)).state.no_narrations_backoff
        = min (5 * 2 ^ (k + 1)) 60 := by
      rw [hs]
      show (if outcomeNoNarr (.workerErr noNarrMsg) = true then
              (if st.no_narrations_backoff = 0 then (5:Int)
               else min (st.no_narrations_backoff * 2) st.max_backoff)
            else if outcomeSuccess (.workerErr noNarrMsg) = true then 0
            else st.no_narrations_backoff) = min (5 * 2 ^ (k + 1)) 60
      rw [if_pos (by decide), hb, hmb, backoff_min_double _ ha, pow_succ, mul_assoc]
    have hrec := ih (start_worker st t1 t2 (.workerErr noNarrMsg)).state (k + 1) hwf' hmb' hb'
    simp only [runNoWork]
    rw [hrec]
    have : k + 1 + rest.length = k + (rest.length + 1) := by omega
    rw [this]
    simp

/-- C1: from a fresh (non-backing-off) pool, any non-empty sequence of
executions finishing with the no-work outcome leaves the backoff at
min(5 * 2^(n-1), 60): 5 on the first finish, doubling on each
consecutive later finish, capped at 60; and an execution finishing with
success resets the backoff to 0 from any state. -/
theorem c1_backoff_doubling_and_reset (st0 st : ManagerState) (ts : List (ℚ × ℚ))
    (t1 t2 : ℚ) (h0 : WFState st0) (hmb : st0.max_backoff = 60)
    (hb : st0.no_narrations_backoff = 0) (hts : ts ≠ []) (hst : WFState st) :
    (runNoWork st0 ts).no_narrations_backoff = min (5 * 2 ^ (ts.length - 1)) 60
    ∧ (start_worker st t1 t2 (.ok true)).state.no_narrations_backoff = 0 := by
  constructor
  · obtain ⟨u, rest, rfl⟩ : ∃ u rest, ts = u :: rest := by
      cases ts with
      | nil => exact absurd rfl hts
      | cons u rest => exact ⟨u, rest, rfl⟩
    obtain ⟨u1, u2⟩ := u
    have hs := start_worker_spec st0 u1 u2 (.workerErr noNarrMsg) h0
    have hb1 : (start_worker st0 u1 u2 (.workerErr noNarrMsg)).state.no_narrations_backoff
        = min (5 * 2 ^ (0 : Nat)) 60 := by
      rw [hs]
      show (if outcomeNoNarr (.workerErr noNarrMsg) = true then
              (if st0.no_narrations_backoff = 0 then (5:Int)
               else min (st0.no_narrations_backoff * 2) st0.max_backoff)
            else if outcomeSuccess (.workerErr noNarrMsg) = true then 0
            else st0.no_narrations_backoff) = min (5 * 2 ^ (0:Nat)) 60
      rw [if_pos (by decide), if_pos hb]
      norm_num
    have hwf1 := WF_start_worker st0 u1 u2 (.workerErr noNarrMsg) h0
    have hmb1 : (start_worker st0 u1 u2 (.workerErr noNarrMsg)).state.max_backoff = 60 := by
      rw [hs]; exact hmb
    have := runNoWork_backoff rest _ 0 hwf1 hmb1 hb1
    simp only [runNoWork]
    rw [this]
    simp
  · rw [start_worker_spec st t1 t2 (.ok true) hst]
    show (if outcomeNoNarr (.ok true) = true then
            (if st.no_narrations_backoff = 0 then (5:Int)
             else min (st.no_narrations_backoff * 2) st.max_backoff)
          else if outcomeSuccess (.ok true) = true then 0
          else st.no_narrations_backoff) = 0
    rw [if_neg (by decide), if_pos (by decide)]

/-- Witness for C1: two consecutive no-work finishes from the fresh pool
give backoff min(5 * 2, 60) = 10, and a success finish resets it. -/
theorem c1_backoff_witness :
    WFState initState ∧ initState.max_backoff = 60
    ∧ initState.no_narrations_backoff = 0
    ∧ ([((0:ℚ), (0:ℚ)), (2, 3)] : List (ℚ × ℚ)) ≠ []
    ∧ (runNoWork initState [((0:ℚ), (0:ℚ)), (2, 3)]).no_narrations_backoff
        = min (5 * 2 ^ (([((0:ℚ), (0:ℚ)), (2, 3)] : List (ℚ × ℚ)).length - 1)) 60
    ∧ (start_worker initState 0 1 (.ok true)).state.no_narrations_backoff = 0 := by
  have hwf : WFState initState := fun p hp => absurd hp (List.not_mem_nil p)
  have h := c1_backoff_doubling_and_reset initState initState
    [((0:ℚ), (0:ℚ)), (2, 3)] 0 1 hwf (by decide) (by decide) (by decide) hwf
  exact ⟨hwf, by decide, by decide, by decide, h.1, h.2⟩

/-- Equation for the backoff field of start_worker on an arbitrary state,
including the duplicate-id early return. -/
theorem start_worker_backoff_eq (st : ManagerState) (t1 t2 : ℚ) (out : ProcOutcome) :
    (start_worker st t1 t2 out).state.no_narrations_backoff =
      if (st.active_workers.lookup (st.worker_counter + 1)).isSome then
        st.no_narrations_backoff
      else if outcomeNoNarr out then
        (if st.no_narrations_backoff = 0 then 5
         else min (st.no_narrations_backoff * 2) st.max_backoff)
      else if outcomeSuccess out then 0
      else st.no_narrations_backoff := by
  by_cases hl : (st.active_workers.lookup (st.worker_counter + 1)).isSome = true
  · simp [start_worker, hl]
  · rcases out with m | b | m | m
    · simp [start_worker, hl, outcomeNoNarr, outcomeSuccess]
    · cases b <;> simp [start_worker, hl, outcomeNoNarr, outcomeSuccess]
    · by_cases hm : pyIn noNarrMsg m = true <;>
        simp [start_worker, hl, hm, outcomeNoNarr, outcomeSuccess]
    · by_cases hm : pyIn noNarrMsg m = true <;>
        simp [start_worker, hl, hm, outcomeNoNarr, outcomeSuccess]

/-- start_worker never changes max_backoff. -/
theorem start_worker_max_backoff (st : ManagerState) (t1 t2 : ℚ) (out : ProcOutcome) :
    (start_worker st t1 t2 out).state.max_backoff = st.max_backoff := by
  simp only [start_worker]
  split
  · rfl
  · rcases out with m | b | m | m
    · rfl
    · cases b <;> rfl
    · by_cases hm : pyIn noNarrMsg m = true <;> simp [hm]
    · by_cases hm : pyIn noNarrMsg m = true <;> simp [hm]

/-- Every start_worker call moves the backoff in one of four ways:
unchanged, 0 to 5, doubled and capped at max_backoff, or reset to 0. -/
theorem start_worker_backoff_shape (st : ManagerState) (t1 t2 : ℚ) (out : ProcOutcome) :
    (start_worker st t1 t2 out).state.no_narrations_backoff = st.no_narrations_backoff
    ∨ (st.no_narrations_backoff = 0
       ∧ (start_worker st t1 t2 out).state.no_narrations_backoff = 5)
    ∨ (start_worker st t1 t2 out).state.no_narrations_backoff
        = min (st.no_narrations_backoff * 2) st.max_backoff
    ∨ (start_worker st t1 t2 out).state.no_narrations_backoff = 0 := by
  rw [start_worker_backoff_eq]
  split_ifs with h1 h2 h3 h4
  · exact Or.inl rfl
  · exact Or.inr (Or.inl ⟨h3, rfl⟩)
  · exact Or.inr (Or.inr (Or.inl rfl))
  · exact Or.inr (Or.inr (Or.inr rfl))
  · exact Or.inl rfl

/-- Equation for the backoff field of should_start_new_worker. -/
theorem should_start_backoff_eq (cfg : WorkerConfig) (st : ManagerState) (now : ℚ) :
    (should_start_new_worker cfg st now).2.no_narrations_backoff =
      if st.no_narrations_backoff > 0 then
        (if now - st.last_no_narration_time < (st.no_narrations_backoff : ℚ) then
          st.no_narrations_backoff
         else 0)
      else st.no_narrations_backoff := by
  simp only [should_start_new_worker]
  split_ifs <;> rfl

/-- should_start_new_worker never changes max_backoff. -/
theorem should_start_max_backoff (cfg : WorkerConfig) (st : ManagerState) (now : ℚ) :
    (should_start_new_worker cfg st now).2.max_backoff = st.max_backoff := by
  simp only [should_start_new_worker]
  split_ifs <;> rfl

/-- Every should_start_new_worker call leaves the backoff unchanged or
resets it to 0. -/
theorem should_start_shape (cfg : WorkerConfig) (st : ManagerState) (now : ℚ) :
    (should_start_new_worker cfg st now).2.no_narrations_backoff = st.no_narrations_backoff
    ∨ (should_start_new_worker cfg st now).2.no_narrations_backoff = 0 := by
  rw [should_start_backoff_eq]
  split_ifs
  · exact Or.inl rfl
  · exact Or.inr rfl
  · exact Or.inl rfl

/-- The C5 invariant: max_backoff is pinned at 60 and the backoff scalar
is 0 or in the closed band [5, 60]. -/
def BackoffOk (st : ManagerState) : Prop :=
  st.max_backoff = 60 ∧
    (st.no_narrations_backoff = 0
     ∨ (5 ≤ st.no_narrations_backoff ∧ st.no_narrations_backoff ≤ 60))

/-- One pool step preserves the C5 invariant. -/
theorem backoffOk_step (cfg : WorkerConfig) (st st' : ManagerState)
    (h : BackoffOk st) (hs : PoolStep cfg st st') : BackoffOk st' := by
  obtain ⟨hmb, hinv⟩ := h
  cases hs with
  | finish t1 t2 out =>
    refine ⟨by rw [start_worker_max_backoff, hmb], ?_⟩
    rcases start_worker_backoff_shape st t1 t2 out with hh | ⟨h0, h5⟩ | hh | hh
    · rw [hh]; exact hinv
    · rw [h5]; right; omega
    · rw [hh, hmb]
      rcases hinv with h0 | ⟨h5, h60⟩
      · rw [h0]; left; simp
      · right; omega
    · rw [hh]; left; rfl
  | decideCall now =>
    refine ⟨by rw [should_start_max_backoff, hmb], ?_⟩
    rcases should_start_shape cfg st now with hh | hh
    · rw [hh]; exact hinv
    · rw [hh]; left; rfl

/-- Every reachable pool state satisfies the C5 invariant. -/
theorem backoffOk_reachable (cfg : WorkerConfig) (st : ManagerState)
    (h : Reachable cfg st) : BackoffOk st := by
  induction h with
  | refl => exact ⟨rfl, Or.inl rfl⟩
  | tail _ hstep ih => exact backoffOk_step cfg _ _ ih hstep

/-- C5: along every transition out of a reachable pool state, the
backoff is 0 or in [5, 60] before and after, and the transition either
leaves it unchanged, moves it from 0 to 5, doubles it capped at 60, or
resets it to 0 — it never grows unbounded and never goes negative. -/
theorem c5_backoff_invariant (cfg : WorkerConfig) (st st' : ManagerState)
    (hr : Reachable cfg st) (hs : PoolStep cfg st st') :
    (st.no_narrations_backoff = 0
     ∨ (5 ≤ st.no_narrations_backoff ∧ st.no_narrations_backoff ≤ 60))
    ∧ (st'.no_narrations_backoff = 0
       ∨ (5 ≤ st'.no_narrations_backoff ∧ st'.no_narrations_backoff ≤ 60))
    ∧ (st'.no_narrations_backoff = st.no_narrations_backoff
       ∨ (st.no_narrations_backoff = 0 ∧ st'.no_narrations_backoff = 5)
       ∨ st'.no_narrations_backoff = min (st.no_narrations_backoff * 2) 60
       ∨ st'.no_narrations_backoff = 0) := by
  have h1 := backoffOk_reachable cfg st hr
  have h2 := backoffOk_step cfg st st' h1 hs
  refine ⟨h1.2, h2.2, ?_⟩
  cases hs with
  | finish t1 t2 out =>
    have hsh := start_worker_backoff_shape st t1 t2 out
    rwa [h1.1] at hsh
  | decideCall now =>
    rcases should_start_shape cfg st now with hh | hh
    · exact Or.inl hh
    · exact Or.inr (Or.inr (Or.inr hh))

/-- Witness for C5: the fresh pool is reachable, a decision poll is a
pool step, and the invariant holds there. -/
theorem c5_witness :
    Reachable ⟨"tara", true, 3⟩ initState
    ∧ PoolStep ⟨"tara", true, 3⟩ initState
        (should_start_new_worker ⟨"tara", true, 3⟩ initState 0).2
    ∧ (initState.no_narrations_backoff = 0
       ∨ (5 ≤ initState.no_narrations_backoff ∧ initState.no_narrations_backoff ≤ 60)) :=
  ⟨Relation.ReflTransGen.refl, PoolStep.decideCall initState 0,
    (c5_backoff_invariant ⟨"tara", true, 3⟩ initState _
      Relation.ReflTransGen.refl (PoolStep.decideCall initState 0)).1⟩

/-- C2 (amended): whenever at least one worker is allowed
(max_workers is at least 1), should_start_new_worker never answers true
while the live record count is at or above max_workers. -/
theorem c2_decide_respects_max_amended (cfg : WorkerConfig) (st : ManagerState) (now : ℚ)
    (hmax : 1 ≤ cfg.max_workers)
    (hge : cfg.max_workers ≤ (st.active_workers.length : Int)) :
    (should_start_new_worker cfg st now).1 = false := by
  have hlen : st.active_workers.length ≠ 0 := by omega
  simp only [should_start_new_worker]
  split_ifs with h1 h2 h3
  any_goals rfl
  all_goals first
    | simpa using hlen
    | (exfalso; omega)

/-- C2 counterexample: with a configured maximum of 0 workers, the fresh
pool has 0 active records (0 is at or above the maximum), yet the
decision answers true — the claim is false for that configured maximum. -/
theorem c2_counterexample :
    (should_start_new_worker ⟨"tara", true, 0⟩ initState 0).1 = true
    ∧ (⟨"tara", true, 0⟩ : WorkerConfig).max_workers
        ≤ (initState.active_workers.length : Int) := by
  decide

/-- Witness for C2 (amended): with a maximum of 1 and one live record,
the decision answers false. -/
theorem c2_amended_witness :
    (1 : Int) ≤ (⟨"tara", true, 1⟩ : WorkerConfig).max_workers
    ∧ (⟨"tara", true, 1⟩ : WorkerConfig).max_workers
        ≤ ((({ initState with
                active_workers := [(1, ⟨0, WStatus.processing⟩)]
                worker_counter := 1 } : ManagerState)).active_workers.length : Int)
    ∧ (should_start_new_worker ⟨"tara", true, 1⟩
        { initState with
          active_workers := [(1, ⟨0, WStatus.processing⟩)]
          worker_counter := 1 } 0).1 = false :=
  ⟨by decide, by decide,
    c2_decide_respects_max_amended _ _ _ (by decide) (by decide)⟩

/-- random.choice on a non-empty list returns a member. -/
theorem pyChoice_mem (l : List String) (r : Nat) (h : l ≠ []) : pyChoice l r ∈ l := by
  have hlen : 0 < l.length := List.length_pos.mpr h
  have hlt : r % l.length < l.length := Nat.mod_lt r hlen
  unfold pyChoice
  rw [List.getD_eq_getElem l "" hlt]
  exact List.getElem_mem hlt

/-- Every feminine-pool voice is one of the six voices. -/
theorem female_sub_available : ∀ x ∈ FEMALE_VOICES, x ∈ AVAILABLE_VOICES := by decide

/-- Every masculine-pool voice is one of the six voices. -/
theorem male_sub_available : ∀ x ∈ MALE_VOICES, x ∈ AVAILABLE_VOICES := by decide

/-- C8: with use_random_voice unset, a recognised feminine hint whose
configured default voice lies outside the feminine pool yields a
feminine-pool voice for every random draw; and a hint that is absent or
unrecognised (for either pool) yields the configured default voice
unchanged, for every random draw. -/
theorem c8_voice_selection_default_mode (cfg cfg2 : WorkerConfig) (g : String)
    (tg2 : Option String) (rG rG2 : Bool) (rI rI2 : Nat)
    (h1 : cfg.use_random_voice = false)
    (h2 : pyStrip (pyLower g) ∈ (["female", "woman", "girl", "f"] : List String))
    (h3 : cfg.voice ∉ FEMALE_VOICES)
    (h4 : cfg2.use_random_voice = false)
    (h5 : pyStrip (pyLower (tg2.getD "")) ∉ (["female", "woman", "girl", "f"] : List String))
    (h6 : pyStrip (pyLower (tg2.getD "")) ∉ (["male", "man", "boy", "m"] : List String)) :
    get_voice cfg (some g) rG rI ∈ FEMALE_VOICES
    ∧ get_voice cfg2 tg2 rG2 rI2 = cfg2.voice := by
  constructor
  · have hg : g ≠ "" := by
      intro hge
      rw [hge] at h2
      exact absurd h2 (by decide)
    rw [get_voice, if_neg (by rw [h1]; exact Bool.false_ne_true)]
    simp only [Option.getD_some]
    rw [if_pos hg, if_pos h2, if_pos h3]
    exact pyChoice_mem _ _ (by decide)
  · rw [get_voice, if_neg (by rw [h4]; exact Bool.false_ne_true)]
    by_cases hg : tg2.getD "" = ""
    · rw [if_neg (by simpa using hg)]
    · rw [if_pos hg, if_neg h5, if_neg h6]

/-- Witness for C8: hint "Female" with default "leo" gives a feminine
voice; no hint gives the default back. -/
theorem c8_witness :
    (⟨"leo", false, 3⟩ : WorkerConfig).use_random_voice = false
    ∧ pyStrip (pyLower "Female") ∈ (["female", "woman", "girl", "f"] : List String)
    ∧ (⟨"leo", false, 3⟩ : WorkerConfig).voice ∉ FEMALE_VOICES
    ∧ pyStrip (pyLower ((none : Option String).getD ""))
        ∉ (["female", "woman", "girl", "f"] : List String)
    ∧ pyStrip (pyLower ((none : Option String).getD ""))
        ∉ (["male", "man", "boy", "m"] : List String)
    ∧ get_voice ⟨"leo", false, 3⟩ (some "Female") true 2 ∈ FEMALE_VOICES
    ∧ get_voice ⟨"leo", false, 3⟩ none true 2 = (⟨"leo", false, 3⟩ : WorkerConfig).voice := by
  have h := c8_voice_selection_default_mode ⟨"leo", false, 3⟩ ⟨"leo", false, 3⟩ "Female"
    none true true 2 2 rfl (by decide) (by decide) rfl (by decide) (by decide)
  exact ⟨rfl, by decide, by decide, by decide, by decide, h.1, h.2⟩

/-- C10: for every configuration, hint and random draw, get_voice
returns either the configured default voice or one of the six pool
voices; and whenever use_random_voice is set the result is always one of
the six pool voices. -/
theorem c10_voice_in_pool (cfg : WorkerConfig) (tg : Option String) (rG : Bool) (rI : Nat) :
    (get_voice cfg tg rG rI = cfg.voice ∨ get_voice cfg tg rG rI ∈ AVAILABLE_VOICES)
    ∧ (cfg.use_random_voice = true → get_voice cfg tg rG rI ∈ AVAILABLE_VOICES) := by
  have hf : ∀ r, pyChoice FEMALE_VOICES r ∈ AVAILABLE_VOICES := fun r =>
    female_sub_available _ (pyChoice_mem _ r (by decide))
  have hm : ∀ r, pyChoice MALE_VOICES r ∈ AVAILABLE_VOICES := fun r =>
    male_sub_available _ (pyChoice_mem _ r (by decide))
  simp only [get_voice]
  constructor
  · split_ifs <;> first | exact Or.inl rfl | exact Or.inr (hf rI) | exact Or.inr (hm rI)
  · intro hrand
    rw [if_pos hrand]
    split_ifs <;> first | exact hf rI | exact hm rI

/-- Witness for C10: with use_random_voice set and an out-of-pool
default, the result is one of the six voices. -/
theorem c10_witness :
    (⟨"custom", true, 3⟩ : WorkerConfig).use_random_voice = true
    ∧ get_voice ⟨"custom", true, 3⟩ none false 4 ∈ AVAILABLE_VOICES :=
  ⟨rfl, (c10_voice_in_pool ⟨"custom", true, 3⟩ none false 4).2 rfl⟩

/-- C9 counterexample: with pydub importable but its call raising, and
ffmpeg available whose output parses to 60 seconds, get_mp3_duration
returns 0.0 without attempting the ffmpeg fallback — the primary method
failed but the fallback was not taken, and 0.0 is returned although not
both methods failed. -/
theorem c9_counterexample :
    get_mp3_duration ⟨true, .error (), true, false,
        ["  Duration: 00:01:00.00, bitrate: 128"]⟩ = 0
    ∧ scanDuration ["  Duration: 00:01:00.00, bitrate: 128"] = .ok (some 60)
    ∧ (0 : ℚ) ≠ 60 := by
  refine ⟨rfl, ?_, by norm_num⟩
  have h : scanDuration ["  Duration: 00:01:00.00, bitrate: 128"]
      = .ok (some (round2 (1 * ((0:ℕ) : ℚ) * 3600 + 1 * ((1:ℕ) : ℚ) * 60
          + 1 * (((0:ℕ) : ℚ) + ((0:ℕ) : ℚ) / 10 ^ 2)))) := rfl
  rw [h, round2]
  norm_num

/-- C9 (amended): get_mp3_duration uses pydub whenever the pydub import
succeeded, returning its millisecond length divided by 1000 rounded to 2
decimals, and 0.0 if the pydub call raises (without attempting ffmpeg);
only when pydub is unavailable does it invoke ffmpeg and parse a
HH:MM:SS.ss duration from the diagnostic output as
hours*3600 + minutes*60 + seconds rounded to 2 decimals, returning 0.0
if ffmpeg is unavailable, the invocation raises, no line parses, or a
field fails float parsing; it never raises to the caller (the embedding
is a total function covering every modelled collaborator behaviour). -/
theorem c9_mp3_duration_amended (env : Mp3Env) :
    (∀ ms : ℚ, env.pydubAvailable = true → env.pydubMs = .ok ms →
      get_mp3_duration env = round2 (ms / 1000))
    ∧ (env.pydubAvailable = true → env.pydubMs = .error () →
        get_mp3_duration env = 0)
    ∧ (∀ d : ℚ, env.pydubAvailable = false → env.ffmpegAvailable = true →
        env.ffmpegRaises = false → scanDuration env.stderrLines = .ok (some d) →
        get_mp3_duration env = d)
    ∧ (env.pydubAvailable = false → env.ffmpegAvailable = true →
        env.ffmpegRaises = false → scanDuration env.stderrLines = .ok none →
        get_mp3_duration env = 0)
    ∧ (env.pydubAvailable = false → env.ffmpegAvailable = true →
        env.ffmpegRaises = false → scanDuration env.stderrLines = .error () →
        get_mp3_duration env = 0)
    ∧ (env.pydubAvailable = false → env.ffmpegAvailable = true →
        env.ffmpegRaises = true → get_mp3_duration env = 0)
    ∧ (env.pydubAvailable = false → env.ffmpegAvailable = false →
        get_mp3_duration env = 0)
    ∧ (∀ (l : String) (rest : List String) (h m s : ℚ) (parts : List String),
        pyIn "Duration:" l = true →
        parts = pySplitOn
          (pyStrip ((pySplitOn ((pySplitOn l "Duration:").getD 1 "") ",").getD 0 "")) ":" →
        parts.length = 3 →
        pyFloat? (parts.getD 0 "") = some h →
        pyFloat? (parts.getD 1 "") = some m →
        pyFloat? (parts.getD 2 "") = some s →
        scanDuration (l :: rest) = .ok (some (round2 (h * 3600 + m * 60 + s)))) := by
  refine ⟨?_, ?_, ?_, ?_, ?_, ?_, ?_, ?_⟩
  · intro ms hp hok
    simp [get_mp3_duration, hp, hok]
  · intro hp herr
    simp [get_mp3_duration, hp, herr]
  · intro d hp hff hr hscan
    simp [get_mp3_duration, hp, hff, hr, hscan]
  · intro hp hff hr hscan
    simp [get_mp3_duration, hp, hff, hr, hscan]
  · intro hp hff hr hscan
    simp [get_mp3_duration, hp, hff, hr, hscan]
  · intro hp hff hr
    simp [get_mp3_duration, hp, hff, hr]
  · intro hp hff
    simp [get_mp3_duration, hp, hff]
  · intro l rest h m s parts hin hparts hlen hh hm hs
    subst hparts
    rw [scanDuration, if_pos hin]
    dsimp only
    rw [if_pos hlen, hh, hm, hs]

/-- Witness for C9 (amended): with pydub unavailable, the ffmpeg parse of
a 1-minute duration line is returned. -/
theorem c9_witness :
    (⟨false, .error (), true, false, ["  Duration: 00:01:00.00, bitrate: 128"]⟩
        : Mp3Env).pydubAvailable = false
    ∧ scanDuration ["  Duration: 00:01:00.00, bitrate: 128"] = .ok (some 60)
    ∧ get_mp3_duration
        ⟨false, .error (), true, false, ["  Duration: 00:01:00.00, bitrate: 128"]⟩ = 60 := by
  have hscan : scanDuration ["  Duration: 00:01:00.00, bitrate: 128"] = .ok (some 60) := by
    have h : scanDuration ["  Duration: 00:01:00.00, bitrate: 128"]
        = .ok (some (round2 (1 * ((0:ℕ) : ℚ) * 3600 + 1 * ((1:ℕ) : ℚ) * 60
            + 1 * (((0:ℕ) : ℚ) + ((0:ℕ) : ℚ) / 10 ^ 2)))) := rfl
    rw [h, round2]
    norm_num
  exact ⟨rfl, hscan,
    (c9_mp3_duration_amended
        ⟨false, .error (), true, false, ["  Duration: 00:01:00.00, bitrate: 128"]⟩).2.2.1
      60 rfl rfl rfl hscan⟩

/-- Guarded deletion only ever shrinks the file system. -/
theorem mem_pyExistsRemove (fs : FS) (q a : String) (h : a ∈ pyExistsRemove fs q) :
    a ∈ fs := by
  unfold pyExistsRemove at h
  split_ifs at h
  · exact (List.mem_filter.mp h).1
  · exact h

/-- After a guarded deletion the deleted path is gone (or was never
there). -/
theorem not_mem_pyExistsRemove_self (fs : FS) (q : String) : q ∉ pyExistsRemove fs q := by
  unfold pyExistsRemove
  split_ifs with hq
  · intro hmem
    have := (List.mem_filter.mp hmem).2
    simp at this
  · exact hq

/-- A fold of guarded deletions only ever shrinks the file system. -/
theorem mem_foldl_pyExistsRemove (l : List String) (fs : FS) (a : String)
    (h : a ∈ l.foldl pyExistsRemove fs) : a ∈ fs := by
  induction l generalizing fs with
  | nil => exact h
  | cons q t ih => exact mem_pyExistsRemove fs q a (ih _ h)

/-- A path fed to a fold of guarded deletions is gone afterwards. -/
theorem not_mem_foldl_of_mem (l : List String) (fs : FS) (p : String)
    (h : p ∈ l) : p ∉ l.foldl pyExistsRemove fs := by
  induction l generalizing fs with
  | nil => exact absurd h (List.not_mem_nil p)
  | cons q t ih =>
    rcases List.mem_cons.mp h with rfl | hmem
    · by_cases ht : p ∈ t
      · exact ih _ ht
      · intro hm
        exact (not_mem_pyExistsRemove_self fs p)
          (mem_foldl_pyExistsRemove t (pyExistsRemove fs p) p hm)
    · exact ih _ hmem

/-- The pipeline cleanup only ever shrinks the file system. -/
theorem cleanupFiles_subset (w m : Option String) (fs : FS) (a : String)
    (h : a ∈ cleanupFiles w m fs) : a ∈ fs :=
  mem_foldl_pyExistsRemove _ _ _ h

/-- The pipeline cleanup deletes a truthy wav_file_path. -/
theorem cleanupFiles_removes_wav (w : String) (m : Option String) (fs : FS) (hw : w ≠ "") :
    w ∉ cleanupFiles (some w) m fs := by
  unfold cleanupFiles
  apply not_mem_foldl_of_mem
  simp [pyTruthy, hw]

/-- The pipeline cleanup deletes a truthy mp3_file_path distinct from the
wav path. -/
theorem cleanupFiles_removes_mp3 (w m : String) (fs : FS) (hm : m ≠ "") (hne : m ≠ w) :
    m ∉ cleanupFiles (some w) (some m) fs := by
  unfold cleanupFiles
  apply not_mem_foldl_of_mem
  simp [pyTruthy, hm, hne]

/-- Every temp file the Discord notifier creates is gone from the file
system it returns, provided the generated temp names are non-empty (the
source builds them from a prefix, an id and a timestamp, so they never
are). -/
theorem notify_clean (env : NotifyEnv) (fs : FS) (ht : env.textPath ≠ "")
    (ha : env.audioPath ≠ "") :
    ∀ p ∈ (notifyRun env fs).2, p ∉ (notifyRun env fs).1 := by
  intro p hp
  by_cases hw : env.webhookConfigured = true
  case neg =>
    rw [notifyRun, if_neg hw] at hp
    simp at hp
  case pos =>
    rw [notifyRun, if_pos hw] at hp ⊢
    dsimp only at hp ⊢
    by_cases hA : env.makeTextFile = true ∧ env.textWriteCompleted = true <;>
      by_cases hB : ¬env.exnBeforeAudio = true ∧ env.audioDownloaded = true
    · rw [if_pos hA, if_pos hB] at hp
      rw [if_pos ⟨hA.1, ht⟩, if_pos ⟨hB, ha⟩, if_pos hB, if_pos hA]
      simp only [List.mem_append, List.mem_singleton] at hp
      rcases hp with rfl | rfl
      · exact not_mem_pyExistsRemove_self _ _
      · intro hmem
        exact not_mem_pyExistsRemove_self _ _ (mem_pyExistsRemove _ _ _ hmem)
    · rw [if_pos hA, if_neg hB] at hp
      rw [if_pos ⟨hA.1, ht⟩, if_neg (fun hc => hB hc.1), if_neg hB, if_pos hA]
      simp only [List.mem_append, List.mem_singleton, List.not_mem_nil, or_false] at hp
      subst hp
      exact not_mem_pyExistsRemove_self _ _
    · rw [if_neg hA, if_pos hB] at hp
      simp only [List.nil_append, List.mem_singleton] at hp
      subst hp
      by_cases hC4 : env.makeTextFile = true
      · rw [if_pos ⟨hC4, ht⟩, if_pos ⟨hB, ha⟩, if_pos hB, if_neg hA]
        intro hmem
        exact not_mem_pyExistsRemove_self _ _ (mem_pyExistsRemove _ _ _ hmem)
      · rw [if_neg (fun hc => hC4 hc.1), if_pos ⟨hB, ha⟩, if_pos hB, if_neg hA]
        exact not_mem_pyExistsRemove_self _ _
    · rw [if_neg hA, if_neg hB] at hp
      simp at hp

/-- process_narration always terminates with one of the three observable
results: True, False (a swallowed generic exception), or a re-raised
WorkerError — cleanup itself introduces no exception and never alters
the pending result. -/
theorem process_result_classified (env : PipeEnv) (fs0 : FS) :
    (process_narration env fs0).result = .ok true
    ∨ (process_narration env fs0).result = .ok false
    ∨ ∃ m, (process_narration env fs0).result = .error (.workerErr m) := by
  rcases hb : (bodyRun env fs0).result with e | v
  · rcases e with m | m
    · exact Or.inr (Or.inr ⟨m, by simp [process_narration, hb]⟩)
    · exact Or.inr (Or.inl (by simp [process_narration, hb]))
  · cases v
    · exact Or.inr (Or.inl (by simp [process_narration, hb]))
    · exact Or.inl (by simp [process_narration, hb])

/-- C3 counterexample: when generate_tts raises after creating the wav
file — the source writes the file during the chunked read at
worker_system.py lines 687-692, before returning its path — the partial
wav the execution created is still on disk when process_narration
returns, because wav_file_path was never assigned and the finally block
misses it; likewise the partial mp3 left by a failed conversion
survives, because mp3_file_path is reset to the wav path.  The claim as
stated — every created artifact is deleted on every exit path — is
false at these concrete inputs. -/
theorem c3_counterexample :
    "outputs/w.wav" ∈ (process_narration envTtsMidRaise []).created
    ∧ "outputs/w.wav" ∈ (process_narration envTtsMidRaise []).fs
    ∧ "outputs/w.mp3" ∈ (process_narration envConvLeftover []).created
    ∧ "outputs/w.mp3" ∈ (process_narration envConvLeftover []).fs := by
  decide

/-- C3 (amended): whatever the collaborators do (any step failing with
any exception, or all succeeding), every local file the execution
created other than the two orphaned partials — the synthesized wav once
generate_tts has returned its path, the transcoded mp3 when distinct,
and the Discord temp attachments — is absent from the file system when
process_narration returns, and the call returns one of the three
terminal results rather than raising.  Excluded (leakedFiles) are the
partial wav left when generate_tts raises after creating the file and
the partial mp3 left by a failed conversion: those the cleanup cannot
see and does not delete.  The non-emptiness hypotheses restate that the
source builds its file names by concatenation, so they are never
empty. -/
theorem c3_cleanup_amended (env : PipeEnv) (fs0 : FS) (p : String)
    (hwav : env.wavPath ≠ "")
    (hmp3 : pyReplace env.wavPath ".wav" ".mp3" ≠ "")
    (htext : env.notify.textPath ≠ "")
    (haudio : env.notify.audioPath ≠ "")
    (hp : p ∈ (process_narration env fs0).created)
    (hnl : p ∉ leakedFiles env) :
    p ∉ (process_narration env fs0).fs
    ∧ ((process_narration env fs0).result = .ok true
       ∨ (process_narration env fs0).result = .ok false
       ∨ ∃ m, (process_narration env fs0).result = .error (.workerErr m)) := by
  refine ⟨?_, process_result_classified env fs0⟩
  simp only [process_narration] at hp ⊢
  rcases hf : env.fetch with e | n
  · simp [bodyRun, hf] at hp
  · by_cases hid : n.id.getD "" = ""
    · simp [bodyRun, hf, hid] at hp
    · by_cases htxt : assembleText n = ""
      · simp [bodyRun, hf, hid, htxt] at hp
      · rcases htts : env.tts with _ | e | m
        rotate_left
        · simp [bodyRun, hf, hid, htxt, htts] at hp
        · simp [bodyRun, hf, hid, htxt, htts] at hp
          subst hp
          simp [leakedFiles, htts] at hnl
        · rcases hcv : env.convert with _ | lv
          · rcases hup : env.uploadRes with e | url
            · simp [bodyRun, hf, hid, htxt, htts, hcv, hup] at hp ⊢
              rcases hp with rfl | rfl
              · exact cleanupFiles_removes_wav _ _ _ hwav
              · by_cases heq : pyReplace env.wavPath ".wav" ".mp3" = env.wavPath
                · rw [heq]
                  exact cleanupFiles_removes_wav _ _ _ hwav
                · exact cleanupFiles_removes_mp3 _ _ _ hmp3 heq
            · rcases hupd : env.updateRes with e | u
              · simp [bodyRun, hf, hid, htxt, htts, hcv, hup, hupd] at hp ⊢
                rcases hp with rfl | rfl
                · exact cleanupFiles_removes_wav _ _ _ hwav
                · by_cases heq : pyReplace env.wavPath ".wav" ".mp3" = env.wavPath
                  · rw [heq]
                    exact cleanupFiles_removes_wav _ _ _ hwav
                  · exact cleanupFiles_removes_mp3 _ _ _ hmp3 heq
              · simp [bodyRun, hf, hid, htxt, htts, hcv, hup, hupd] at hp ⊢
                rcases hp with rfl | rfl | hnp
                · exact cleanupFiles_removes_wav _ _ _ hwav
                · by_cases heq : pyReplace env.wavPath ".wav" ".mp3" = env.wavPath
                  · rw [heq]
                    exact cleanupFiles_removes_wav _ _ _ hwav
                  · exact cleanupFiles_removes_mp3 _ _ _ hmp3 heq
                · intro hmem
                  exact notify_clean env.notify _ htext haudio p hnp
                    (cleanupFiles_subset _ _ _ _ hmem)
          · cases lv
            · rcases hup : env.uploadRes with e | url
              · simp [bodyRun, hf, hid, htxt, htts, hcv, hup] at hp ⊢
                subst hp
                exact cleanupFiles_removes_wav _ _ _ hwav
              · rcases hupd : env.updateRes with e | u
                · simp [bodyRun, hf, hid, htxt, htts, hcv, hup, hupd] at hp ⊢
                  subst hp
                  exact cleanupFiles_removes_wav _ _ _ hwav
                · simp [bodyRun, hf, hid, htxt, htts, hcv, hup, hupd] at hp ⊢
                  rcases hp with rfl | hnp
                  · exact cleanupFiles_removes_wav _ _ _ hwav
                  · intro hmem
                    exact notify_clean env.notify _ htext haudio p hnp
                      (cleanupFiles_subset _ _ _ _ hmem)
            · rcases hup : env.uploadRes with e | url
              · simp [bodyRun, hf, hid, htxt, htts, hcv, hup] at hp ⊢
                rcases hp with rfl | rfl
                · exact cleanupFiles_removes_wav _ _ _ hwav
                · by_cases heq : pyReplace env.wavPath ".wav" ".mp3" = env.wavPath
                  · rw [heq]
                    exact cleanupFiles_removes_wav _ _ _ hwav
                  · simp [leakedFiles, htts, hcv, heq] at hnl
              · rcases hupd : env.updateRes with e | u
                · simp [bodyRun, hf, hid, htxt, htts, hcv, hup, hupd] at hp ⊢
                  rcases hp with rfl | rfl
                  · exact cleanupFiles_removes_wav _ _ _ hwav
                  · by_cases heq : pyReplace env.wavPath ".wav" ".mp3" = env.wavPath
                    · rw [heq]
                      exact cleanupFiles_removes_wav _ _ _ hwav
                    · simp [leakedFiles, htts, hcv, heq] at hnl
                · simp [bodyRun, hf, hid, htxt, htts, hcv, hup, hupd] at hp ⊢
                  rcases hp with rfl | rfl | hnp
                  · exact cleanupFiles_removes_wav _ _ _ hwav
                  · by_cases heq : pyReplace env.wavPath ".wav" ".mp3" = env.wavPath
                    · rw [heq]
                      exact cleanupFiles_removes_wav _ _ _ hwav
                    · simp [leakedFiles, htts, hcv, heq] at hnl
                  · intro hmem
                    exact notify_clean env.notify _ htext haudio p hnp
                      (cleanupFiles_subset _ _ _ _ hmem)

/-- Witness for C3 (amended): in the fully successful run (which also
downloads both Discord attachments, and creates no orphaned partial)
the synthesized wav is among the created files and is gone at the
end. -/
theorem c3_cleanup_witness :
    envAllOk.wavPath ≠ ""
    ∧ pyReplace envAllOk.wavPath ".wav" ".mp3" ≠ ""
    ∧ envAllOk.notify.textPath ≠ ""
    ∧ envAllOk.notify.audioPath ≠ ""
    ∧ "outputs/w.wav" ∈ (process_narration envAllOk []).created
    ∧ "outputs/w.wav" ∉ leakedFiles envAllOk
    ∧ "outputs/w.wav" ∉ (process_narration envAllOk []).fs :=
  ⟨by decide, by decide, by decide, by decide, by decide, by decide,
    (c3_cleanup_amended envAllOk [] "outputs/w.wav"
      (by decide) (by decide) (by decide) (by decide) (by decide) (by decide)).1⟩

/-- In every run that reaches the synthesis step, the recorded text sent
to generate_tts is the assembled text (also when the call raised: the
text had been handed over). -/
theorem bodyRun_ttsText (env : PipeEnv) (fs0 : FS) (n : Narration)
    (hf : env.fetch = .ok n) (hid : ¬n.id.getD "" = "") (htxt : ¬assembleText n = "") :
    (bodyRun env fs0).ttsText = some (assembleText n) := by
  rcases htts : env.tts with _ | e | m
  · rcases hup : env.uploadRes with e | url
    · simp [bodyRun, hf, hid, htxt, htts, hup]
    · rcases hupd : env.updateRes with e | u
      · simp [bodyRun, hf, hid, htxt, htts, hup, hupd]
      · simp [bodyRun, hf, hid, htxt, htts, hup, hupd]
  · simp [bodyRun, hf, hid, htxt, htts]
  · simp [bodyRun, hf, hid, htxt, htts]

/-- C6 counterexample: for a job whose explicit text field is " hi "
(present and non-blank after trimming), the text sent to synthesis is
the trimmed "hi", not the text field itself — the claim as stated is
false at this input. -/
theorem c6_counterexample :
    nSpacedText.text = some " hi "
    ∧ (process_narration envSpacedText []).ttsText = some "hi"
    ∧ ("hi" : String) ≠ " hi " := by
  refine ⟨rfl, ?_, by decide⟩
  decide

/-- C6 (amended): for every fetched narration with a usable id, the text
sent to synthesis is the trimmed explicit text field when that is
non-blank, and otherwise the trimmed blank-line concatenation of the two
research fields; if the assembled text is empty, the pipeline fails with
the WorkerError "No text content available for TTS" before synthesis is
invoked. -/
theorem c6_text_assembly_amended (env : PipeEnv) (fs0 : FS) (n : Narration)
    (hf : env.fetch = .ok n) (hid : n.id.getD "" ≠ "") :
    (assembleText n ≠ "" →
      (process_narration env fs0).ttsText =
        some (if pyStrip (n.text.getD "") = ""
              then pyStrip ((n.company_deep_research.getD "") ++ "\n\n"
                    ++ (n.profile_deep_research.getD ""))
              else pyStrip (n.text.getD "")))
    ∧ (assembleText n = "" →
        (process_narration env fs0).result
            = .error (.workerErr "No text content available for TTS")
        ∧ (process_narration env fs0).ttsText = none) := by
  constructor
  · intro htxt
    have hval : (process_narration env fs0).ttsText = some (assembleText n) := by
      simp only [process_narration]
      exact bodyRun_ttsText env fs0 n hf hid htxt
    rw [hval]
    rfl
  · intro htxt
    constructor <;> simp [process_narration, bodyRun, hf, hid, htxt]

/-- Witness for C6 (amended): the spaced-text narration yields the
trimmed text. -/
theorem c6_witness :
    envSpacedText.fetch = .ok nSpacedText
    ∧ nSpacedText.id.getD "" ≠ ""
    ∧ assembleText nSpacedText ≠ ""
    ∧ (process_narration envSpacedText []).ttsText =
        some (if pyStrip (nSpacedText.text.getD "") = ""
              then pyStrip ((nSpacedText.company_deep_research.getD "") ++ "\n\n"
                    ++ (nSpacedText.profile_deep_research.getD ""))
              else pyStrip (nSpacedText.text.getD "")) :=
  ⟨rfl, by decide, by decide,
    (c6_text_assembly_amended envSpacedText [] nSpacedText rfl (by decide)).1 (by decide)⟩

/-- C7: when conversion fails (whether or not it left a partial mp3
behind) in a run that reached the conversion step, the pipeline
continues with the untranscoded wav: the upload is handed the wav path,
the duration is measured on the wav, and the terminal result is exactly
what it would have been had conversion succeeded — the transcode
failure alone never flips the outcome. -/
theorem c7_transcode_degradation (env : PipeEnv) (fs0 : FS) (n : Narration) (lv : Bool)
    (hf : env.fetch = .ok n) (hid : n.id.getD "" ≠ "") (htxt : assembleText n ≠ "")
    (htts : env.tts = .ok) (hconv : env.convert = .failed lv) :
    (process_narration env fs0).uploadedPath = some env.wavPath
    ∧ (process_narration env fs0).durationPath = some env.wavPath
    ∧ (process_narration env fs0).durationVal = env.wavDuration
    ∧ (process_narration env fs0).result
        = (process_narration { env with convert := .ok } fs0).result := by
  rcases hup : env.uploadRes with e | url
  · refine ⟨?_, ?_, ?_, ?_⟩ <;>
      rcases e with m | m <;>
      simp [process_narration, bodyRun, hf, hid, htxt, htts, hconv, hup]
  · rcases hupd : env.updateRes with e | u
    · refine ⟨?_, ?_, ?_, ?_⟩ <;>
        (try rcases e with m | m) <;>
        simp [process_narration, bodyRun, hf, hid, htxt, htts, hconv, hup, hupd]
    · refine ⟨?_, ?_, ?_, ?_⟩ <;>
        simp [process_narration, bodyRun, hf, hid, htxt, htts, hconv, hup, hupd]

/-- Witness for C7: with only the conversion failing, the wav is
uploaded and the result equals the all-success result. -/
theorem c7_witness :
    envConvFail.convert = .failed false
    ∧ (process_narration envConvFail []).uploadedPath = some envConvFail.wavPath
    ∧ (process_narration envConvFail []).durationVal = envConvFail.wavDuration
    ∧ (process_narration envConvFail []).result
        = (process_narration { envConvFail with convert := .ok } []).result := by
  have h := c7_transcode_degradation envConvFail []
    ⟨some "j1", some "hello", none, none, none⟩ false rfl (by decide) (by decide) rfl rfl
  exact ⟨rfl, h.1, h.2.2.1, h.2.2.2⟩
